import Mathlib

/-!
Shallow embedding of the core of `sn_node`:

* `src/personas/maid_manager.rs` — the quota `Account`, and the `MaidManager`
  put / response flow with its request cache;
* `src/personas/mpid_manager.rs` — the `MailBox` of the `MpidManager`;
* `src/node/elder_duties/key_section/transfers/replicas.rs` — the transfer
  `Replicas` state machine (`genesis`, `initiate`, `validate`,
  `receive_propagated`).

Machine integers (`u64`) are modelled as `Nat`, with every addition the source
performs on a `u64` reduced modulo `2 ^ 64`; each subtraction in the source is
dominated by the guard in front of it, so it maps to truncated `Nat`
subtraction exactly.

External collaborators (the `sn_transfers` wallet-replica library, the BLS
signing service, the routing overlay) are not code of this repository; they
are either passed as explicit parameters or modelled from the spec, and each
spec-modelled definition carries a doc comment saying so.  Messages that the
source hands to the routing collaborator are collected in an explicit output
list, so that "a response is sent" is a statement about that list.
-/

namespace SnNode

/-- The modulus of the `u64` machine integers used throughout the source. -/
def U64MOD : Nat := 2 ^ 64

/-- `const DEFAULT_ACCOUNT_SIZE: u64 = 1_073_741_824;  // 1 GB` -/
def DEFAULT_ACCOUNT_SIZE : Nat := 1073741824

/-- `const DEFAULT_PAYMENT: u64 = 1_048_576;  // 1 MB` -/
def DEFAULT_PAYMENT : Nat := 1048576

/-- The client-facing error kinds used by the personas
(`error::ClientError`). -/
inductive ClientError
  | AccountExists
  | NoSuchAccount
  | LowBalance
  | NoSuchData
  | DataExists
deriving DecidableEq, Repr

/-- `maid_manager.rs`: `struct Account { data_stored: u64, space_available: u64 }`. -/
structure Account where
  data_stored : Nat
  space_available : Nat
deriving DecidableEq, Repr

/-- `impl Default for Account` — a fresh account:
`data_stored = 0`, `space_available = DEFAULT_ACCOUNT_SIZE`. -/
def Account.default : Account :=
  { data_stored := 0, space_available := DEFAULT_ACCOUNT_SIZE }

/-- The account's notional allowance: by the spec invariant it equals
`data_stored + space_available` and is immutable for the account's lifetime. -/
def Account.allowance (a : Account) : Nat :=
  a.data_stored + a.space_available

/-- `Account::put_data(&mut self, size: u64) -> Result<(), ClientError>`:

```rust
if size > self.space_available { return Err(ClientError::LowBalance); }
self.data_stored += size;
self.space_available -= size;
Ok(())
```

The pair returned is (the `Result`, the account after the call); on the error
path the account is returned unchanged, mirroring `&mut self` untouched. -/
def Account.put_data (a : Account) (size : Nat) :
    Except ClientError Unit × Account :=
  if a.space_available < size then (.error .LowBalance, a)
  else
    (.ok (),
     { data_stored := (a.data_stored + size) % U64MOD,
       space_available := a.space_available - size })

/-- `Account::delete_data(&mut self, size: u64)`:

```rust
if self.data_stored < size {
    self.space_available += self.data_stored;
    self.data_stored = 0;
} else {
    self.data_stored -= size;
    self.space_available += size;
}
``` -/
def Account.delete_data (a : Account) (size : Nat) : Account :=
  if a.data_stored < size then
    { data_stored := 0,
      space_available := (a.space_available + a.data_stored) % U64MOD }
  else
    { data_stored := a.data_stored - size,
      space_available := (a.space_available + size) % U64MOD }

/-- One call of the quota arithmetic: a `put_data` (whose `Result` the caller
may observe, the account being kept unchanged on failure) or a `delete_data`. -/
inductive AccountOp
  | put (size : Nat)
  | delete (size : Nat)
deriving DecidableEq, Repr

/-- Apply one quota call to an account. -/
def applyOp (a : Account) : AccountOp → Account
  | .put size => (a.put_data size).2
  | .delete size => a.delete_data size

/-- Apply a finite sequence of quota calls, in order. -/
def applyOps (a : Account) (ops : List AccountOp) : Account :=
  ops.foldl applyOp a

/-! ### Association lists

`HashMap` / `LruCache` contents are modelled as association lists with the
operations the source uses: lookup, insert-or-replace, and remove.  The
time-to-live and capacity bounds of `LruCache` are time-dependent and are not
modelled; the claims below only concern presence or absence of an entry. -/

/-- `HashMap::get` — lookup by key. -/
def alookup {α : Type} : List (Nat × α) → Nat → Option α
  | [], _ => none
  | (k, v) :: rest, key => if k = key then some v else alookup rest key

/-- `HashMap::insert` / `LruCache::insert` — replace the binding of the key if
present, otherwise add it. -/
def ainsert {α : Type} : List (Nat × α) → Nat → α → List (Nat × α)
  | [], key, v => [(key, v)]
  | (k, w) :: rest, key, v =>
    if k = key then (key, v) :: rest else (k, w) :: ainsert rest key v

/-- `HashMap::remove` / `LruCache::remove` — drop the binding of the key. -/
def aremove {α : Type} : List (Nat × α) → Nat → List (Nat × α)
  | [], _ => []
  | (k, w) :: rest, key =>
    if k = key then rest else (k, w) :: aremove rest key

/-! ### `mpid_manager.rs`: the `MailBox` -/

/-- `mpid_manager.rs`:
`struct MailBox { allowance, used_space, space_available: u64, mail_box: HashMap<XorName, Option<PublicKey>> }`.
`XorName` keys and `sign::PublicKey` values are modelled as `Nat`. -/
structure MailBox where
  allowance : Nat
  used_space : Nat
  space_available : Nat
  mail_box : List (Nat × Option Nat)
deriving DecidableEq, Repr

/-- `MailBox::new(allowance)`. -/
def MailBox.new (allowance : Nat) : MailBox :=
  { allowance := allowance, used_space := 0,
    space_available := allowance, mail_box := [] }

/-- `MailBox::put(&mut self, size, entry, public_key) -> bool`:

```rust
if size > self.space_available { return false; }
if self.mail_box.contains_key(entry) { return false; }
match self.mail_box.insert(entry.clone(), public_key.clone()) {
    Some(_) => { self.used_space += size; self.space_available -= size; true }
    None => false,
}
```

`HashMap::insert` returns the previous value under the key; the match keeps
the source's branches verbatim, including the (dead) `Some` branch. -/
def MailBox.put (mb : MailBox) (size : Nat) (entry : Nat)
    (public_key : Option Nat) : MailBox × Bool :=
  if mb.space_available < size then (mb, false)
  else if (alookup mb.mail_box entry).isSome then (mb, false)
  else
    match alookup mb.mail_box entry with
    | some _ =>
      ({ mb with used_space := (mb.used_space + size) % U64MOD,
                 space_available := mb.space_available - size,
                 mail_box := ainsert mb.mail_box entry public_key }, true)
    | none => ({ mb with mail_box := ainsert mb.mail_box entry public_key }, false)

/-! ### `replicas.rs`: the transfer replica state machine

Wallet identifiers (BLS public keys) and signature shares are modelled as
`Nat`.  The per-wallet `TransferStore` logs (durable, append-only) are the
`stores` association list; `locks : List PublicKey` is the key set of the
`locks: HashMap<PublicKey, Arc<Mutex<TransferStore>>>` map — the claims here
are sequential, so the mutexes themselves carry no further content. -/

/-- A wallet identifier — a BLS public key (`sn_data_types::PublicKey`). -/
abbrev PublicKey := Nat

/-- `sn_data_types::CreditAgreementProof`, abstracted to the accessors the
source uses: `recipient()`, the credited amount, the credit identifier used
for idempotence, and `replica_keys()` (the debiting section's key set,
represented by its public key). -/
structure CreditAgreementProof where
  recipient_key : PublicKey
  amount : Nat
  credit_id : Nat
  replica_keys : PublicKey
deriving DecidableEq, Repr

/-- `sn_data_types::SignedTransfer`, abstracted to `sender()` plus opaque
debit and credit payloads. -/
structure SignedTransfer where
  sender_key : PublicKey
  debit : Nat
  credit : Nat
deriving DecidableEq, Repr

/-- `sn_data_types::TransferValidated` — the event appended by
`Replicas::validate`. -/
structure TransferValidatedEvent where
  signed_transfer : SignedTransfer
  replica_debit_sig : Nat
  replica_credit_sig : Nat
  replicas : PublicKey
deriving DecidableEq, Repr

/-- `sn_data_types::TransferRegistered`, abstracted to `sender()` plus an
opaque payload. -/
structure TransferRegisteredEvent where
  sender_key : PublicKey
  payload : Nat
deriving DecidableEq, Repr

/-- `sn_data_types::TransferPropagated` — the event appended by
`Replicas::genesis` and `Replicas::receive_propagated`. -/
structure TransferPropagatedEvent where
  credit_proof : CreditAgreementProof
  crediting_replica_keys : PublicKey
  crediting_replica_sig : Nat
deriving DecidableEq, Repr

/-- `sn_data_types::ReplicaEvent`. -/
inductive ReplicaEvent
  | TransferValidated (e : TransferValidatedEvent)
  | TransferRegistered (e : TransferRegisteredEvent)
  | TransferPropagated (e : TransferPropagatedEvent)
  | KnownGroupAdded (group : Nat)
deriving DecidableEq, Repr

/-- `sn_data_types::Error`, abstracted to the one variant the embedded code
produces (`NetworkOther`). -/
inductive NdError
  | NetworkOther
deriving DecidableEq, Repr

/-- `crate::Error`, restricted to the variants reachable from the embedded
operations.  `Unimplemented` models the `unimplemented!()` panic on the
`KnownGroupAdded` replay arm. -/
inductive TransferError
  | Logic
  | InvalidMessage
  | NetworkData (e : NdError)
  | Unimplemented
deriving DecidableEq, Repr

/-- `ReplicaInfo`: the replica's id and index are opaque; `peer_replicas` is
the section key set (represented by its public key) and
`section_proof_chain` the ordered list of historical section keys. -/
structure ReplicaInfo where
  id : Nat
  key_index : Nat
  peer_replicas : PublicKey
  section_proof_chain : List PublicKey
deriving DecidableEq, Repr

/-- The `Replicas` state: the `locks` map's key set, the per-wallet durable
event logs, and the replica's key material. -/
structure Replicas where
  locks : List PublicKey
  stores : List (PublicKey × List ReplicaEvent)
  info : ReplicaInfo
deriving DecidableEq, Repr

/-- `Replicas::new(root_dir, info)` — `locks` starts `Default::default()`
(empty) and the root directory holds no wallet logs yet. -/
def Replicas.new (info : ReplicaInfo) : Replicas :=
  { locks := [], stores := [], info := info }

/-- The contents of wallet `id`'s `TransferStore` (`get_all()`); a wallet with
no log file yet reads as the empty log (`Init::New`). -/
def Replicas.getStore (r : Replicas) (id : PublicKey) : List ReplicaEvent :=
  (alookup r.stores id).getD []

/-- `TransferStore::try_insert` — append one event to wallet `id`'s log. -/
def Replicas.insertEvent (r : Replicas) (id : PublicKey) (e : ReplicaEvent) :
    Replicas :=
  { r with stores := ainsert r.stores id (r.getStore id ++ [e]) }

/-- `Replicas::load_key_lock(id)`:

```rust
match self.locks.get(&id) {
    Some(val) => Ok(val.clone()),
    None => Err(Error::Logic),
}
``` -/
def Replicas.load_key_lock (r : Replicas) (id : PublicKey) :
    Except TransferError Unit :=
  if r.locks.contains id then .ok () else .error .Logic

/-- `Replicas::find_past_key(keyset)` — scan `info.section_proof_chain` for
the keyset's public key; `NetworkOther` if it was never a section key. -/
def Replicas.find_past_key (r : Replicas) (keyset : PublicKey) :
    Except NdError PublicKey :=
  match r.info.section_proof_chain.find? (fun k => k == keyset) with
  | some k => .ok k
  | none => .error .NetworkOther

/-- Modelled from the spec: §3 "Wallet state (derived)" — the set of applied
credit identifiers that `WalletReplica::from_history` (crate `sn_transfers`,
not part of this repository) derives from the wallet's event log. -/
def creditIds (events : List ReplicaEvent) : List Nat :=
  events.filterMap fun e =>
    match e with
    | .TransferPropagated p => some p.credit_proof.credit_id
    | _ => none

/-- Modelled from the spec: §4.3.4 — `WalletReplica::receive_propagated`
(crate `sn_transfers`, not part of this repository).  Resolve the sending
section's key via the supplied resolver (error if absent), verify the credit
agreement's threshold signature (abstracted by the `verify` parameter), and
then the idempotence rule: if the credit identifier is already recorded
return `Ok(None)`; otherwise `Ok(Some(()))`. -/
def wallet_receive_propagated (events : List ReplicaEvent)
    (cp : CreditAgreementProof) (past_key : Except NdError PublicKey)
    (verify : CreditAgreementProof → Bool) : Except NdError (Option Unit) :=
  match past_key with
  | .error e => .error e
  | .ok _ =>
    if verify cp then
      if (creditIds events).contains cp.credit_id then .ok none
      else .ok (some ())
    else .error .NetworkOther

/-- Modelled from the spec: §4.3.1 — `WalletReplica::genesis` (crate
`sn_transfers`, not part of this repository): preconditions are an empty
event log and a self-verifying credit proof under the resolved key. -/
def wallet_genesis (events : List ReplicaEvent) (cp : CreditAgreementProof)
    (past_key : Except NdError PublicKey)
    (verify : CreditAgreementProof → Bool) : Except NdError Unit :=
  match past_key with
  | .error e => .error e
  | .ok _ => if events.isEmpty && verify cp then .ok () else .error .NetworkOther

/-- Modelled from the spec: §6 — `sn_transfers::get_genesis(balance, id)`
builds a credit agreement proof crediting `balance` to wallet `id`, signed by
the bootstrap section's key set. -/
def get_genesis (balance : Nat) (id : PublicKey) : CreditAgreementProof :=
  { recipient_key := id, amount := balance, credit_id := 0, replica_keys := id }

/-- The genesis balance computed by `Replicas::initiate`:
`let balance = u32::MAX as u64 * 1_000_000_000;`. -/
def genesisBalance : Nat := (2 ^ 32 - 1) * 1000000000

/-- `Replicas::genesis(credit_proof, past_key)`:

```rust
let id = credit_proof.recipient();
let key_lock = self.load_key_lock(id).await?;
let mut store = key_lock.lock().await;
let wallet = self.load_wallet(&store, id).await?;
if wallet.genesis(credit_proof, past_key).is_ok() {
    if let Some(crediting_replica_sig) =
        self.info.signing.lock().await.sign_credit_proof(credit_proof)? {
        store.try_insert(ReplicaEvent::TransferPropagated(..))?;
        return Ok(None);
    }
    return Ok(None);
}
Err(Error::InvalidMessage)
```

The signing collaborator (`sign_credit_proof`) and the proof verification
inside the wallet library are passed as parameters.  The pair returned is
(the `Outcome`, the replica state after the call). -/
def Replicas.genesis (r : Replicas)
    (signing : CreditAgreementProof → Except TransferError (Option Nat))
    (verify : CreditAgreementProof → Bool)
    (cp : CreditAgreementProof) (past_key : Except NdError PublicKey) :
    Except TransferError (Option Unit) × Replicas :=
  let id := cp.recipient_key
  match r.load_key_lock id with
  | .error e => (.error e, r)
  | .ok _ =>
    match wallet_genesis (r.getStore id) cp past_key verify with
    | .ok _ =>
      match signing cp with
      | .error e => (.error e, r)
      | .ok (some sig) =>
        (.ok none,
         r.insertEvent id (.TransferPropagated ⟨cp, r.info.peer_replicas, sig⟩))
      | .ok none => (.ok none, r)
    | .error _ => (.error .InvalidMessage, r)

/-- The wallet an event belongs to on the `initiate` replay path: sender for
validated / registered, recipient for propagated; `none` models the
`unimplemented!()` arm for `KnownGroupAdded`. -/
def ReplicaEvent.wallet_id : ReplicaEvent → Option PublicKey
  | .TransferValidated e => some e.signed_transfer.sender_key
  | .TransferRegistered e => some e.sender_key
  | .TransferPropagated e => some e.credit_proof.recipient_key
  | .KnownGroupAdded _ => none

/-- The `for e in events` loop of `Replicas::initiate`: determine each
event's wallet, acquire its lock, and append the event verbatim. -/
def Replicas.initiateLoop (r : Replicas) :
    List ReplicaEvent → Except TransferError (Option Unit) × Replicas
  | [] => (.ok none, r)
  | e :: rest =>
    match e.wallet_id with
    | none => (.error .Unimplemented, r)
    | some id =>
      match r.load_key_lock id with
      | .error err => (.error err, r)
      | .ok _ => (r.insertEvent id e).initiateLoop rest

/-- `Replicas::initiate(events)`:

```rust
if events.is_empty() {
    let balance = u32::MAX as u64 * 1_000_000_000;
    let credit_proof = get_genesis(balance,
        PublicKey::Bls(self.info.peer_replicas.public_key()))?;
    let genesis_source = Ok(PublicKey::Bls(credit_proof.replica_keys().public_key()));
    return self.genesis(&credit_proof, || genesis_source).await;
}
for e in events { .. store.try_insert(e.to_owned())?; }
Outcome::oki_no_value()
``` -/
def Replicas.initiate (r : Replicas)
    (signing : CreditAgreementProof → Except TransferError (Option Nat))
    (verify : CreditAgreementProof → Bool)
    (events : List ReplicaEvent) :
    Except TransferError (Option Unit) × Replicas :=
  if events.isEmpty then
    let credit_proof := get_genesis genesisBalance r.info.peer_replicas
    r.genesis signing verify credit_proof (.ok credit_proof.replica_keys)
  else r.initiateLoop events

/-- `Replicas::validate(signed_transfer)`:

```rust
let id = signed_transfer.sender();
let key_lock = self.load_key_lock(id).await?;
let mut store = key_lock.lock().await;
let wallet = self.load_wallet(&store, id).await?;
match wallet.validate(&signed_transfer.debit, &signed_transfer.credit) {
    Ok(None) => (),
    Err(e) => return Err(Error::NetworkData(e)),
    Ok(Some(())) => {
        if let Some((replica_debit_sig, replica_credit_sig)) =
            self.info.signing.lock().await.sign_transfer(&signed_transfer)? {
            let event = TransferValidated { .. };
            store.try_insert(ReplicaEvent::TransferValidated(event.clone()))?;
            return Outcome::oki(event);
        }
    }
};
Ok(None)
```

`wallet.validate` (the wallet-level precondition check, in crate
`sn_transfers`) and `sign_transfer` (the signing collaborator) are passed as
parameters; `wvalidate` receives the wallet's replayed event log. -/
def Replicas.validate (r : Replicas)
    (wvalidate : List ReplicaEvent → SignedTransfer → Except NdError (Option Unit))
    (signing : SignedTransfer → Except TransferError (Option (Nat × Nat)))
    (st : SignedTransfer) :
    Except TransferError (Option TransferValidatedEvent) × Replicas :=
  let id := st.sender_key
  match r.load_key_lock id with
  | .error e => (.error e, r)
  | .ok _ =>
    match wvalidate (r.getStore id) st with
    | .ok none => (.ok none, r)
    | .error e => (.error (.NetworkData e), r)
    | .ok (some _) =>
      match signing st with
      | .error e => (.error e, r)
      | .ok (some (dsig, csig)) =>
        (.ok (some ⟨st, dsig, csig, r.info.peer_replicas⟩),
         r.insertEvent id (.TransferValidated ⟨st, dsig, csig, r.info.peer_replicas⟩))
      | .ok none => (.ok none, r)

/-- `Replicas::receive_propagated(credit_proof)`:

```rust
let id = credit_proof.recipient();
let key_lock = self.load_key_lock(id).await?;
let mut store = key_lock.lock().await;
let wallet = self.load_wallet(&store, id).await?;
if wallet.receive_propagated(credit_proof,
        || self.find_past_key(&credit_proof.replica_keys())).is_ok() {
    if let Some(crediting_replica_sig) =
        self.info.signing.lock().await.sign_credit_proof(credit_proof)? {
        let event = TransferPropagated { .. };
        store.try_insert(ReplicaEvent::TransferPropagated(event.clone()))?;
        return Outcome::oki(event);
    }
}
Err(Error::InvalidMessage)
```

Note the source tests only `.is_ok()` on the wallet call, so the `Ok(None)`
idempotence outcome is treated like `Ok(Some(..))`: the `.ok _` arm below
covers both, verbatim from the source. -/
def Replicas.receive_propagated (r : Replicas)
    (signing : CreditAgreementProof → Except TransferError (Option Nat))
    (verify : CreditAgreementProof → Bool)
    (cp : CreditAgreementProof) :
    Except TransferError (Option TransferPropagatedEvent) × Replicas :=
  let id := cp.recipient_key
  match r.load_key_lock id with
  | .error e => (.error e, r)
  | .ok _ =>
    match wallet_receive_propagated (r.getStore id) cp
        (r.find_past_key cp.replica_keys) verify with
    | .ok _ =>
      match signing cp with
      | .error e => (.error e, r)
      | .ok (some sig) =>
        (.ok (some ⟨cp, r.info.peer_replicas, sig⟩),
         r.insertEvent id (.TransferPropagated ⟨cp, r.info.peer_replicas, sig⟩))
      | .ok none => (.error .InvalidMessage, r)
    | .error _ => (.error .InvalidMessage, r)

/-! ### `maid_manager.rs`: the `MaidManager`

`XorName`s, authority names and `MessageId`s are modelled as `Nat`.  A client
authority is represented by the client's name (`utils::client_name` of the
source authority).  Fire-and-forget calls on the routing collaborator
(`send_put_request`, `send_put_failure`, `send_put_success`) are collected in
an output list.  Serialisation of requests and errors is treated as total:
the digest sent by `send_put_success` and the serialised error indicator are
represented by the values themselves. -/

/-- `routing::Data`, restricted to the two variants `MaidManager::handle_put`
demuxes (`Data::Immutable`, `Data::Structured`); each carries its `name()`,
and structured data also its `get_type_tag()`. -/
inductive DataM
  | Immutable (name : Nat)
  | Structured (name : Nat) (type_tag : Nat)
deriving DecidableEq, Repr

/-- `Data::name()`. -/
def DataM.name : DataM → Nat
  | .Immutable n => n
  | .Structured n _ => n

/-- `routing::RequestContent`, restricted to the `Put(data, message_id)`
variant reaching the `MaidManager` (other variants are `unreachable!()`). -/
inductive RequestContent
  | Put (data : DataM) (message_id : Nat)
deriving DecidableEq, Repr

/-- `routing::RequestMessage`: source authority (the client, represented by
its name), destination authority (the `ClientManager`, represented by its
name), and the content. -/
structure RequestMessage where
  src : Nat
  dst : Nat
  content : RequestContent
deriving DecidableEq, Repr

/-- `utils::client_name(&request.src)` — the client's `XorName` derived from
the client authority; the authority is modelled by that name. -/
def clientName (src : Nat) : Nat := src

/-- `error::InternalError`, restricted to the variants the embedded handlers
produce.  `Unreachable` models the `unreachable!()` panics on demuxing arms
that cannot be reached through `handle_put`. -/
inductive InternalError
  | Client (e : ClientError)
  | FailedToFindCachedRequest (message_id : Nat)
  | Unreachable
deriving DecidableEq, Repr

/-- A message handed to the routing collaborator. -/
inductive RoutingMsg
  | PutRequest (src : Nat) (dst : Nat) (data : DataM) (message_id : Nat)
  | PutFailure (src : Nat) (dst : Nat) (request : RequestMessage)
      (external_error_indicator : ClientError) (message_id : Nat)
  | PutSuccess (src : Nat) (dst : Nat) (request : RequestMessage)
      (message_id : Nat)
deriving DecidableEq, Repr

/-- `struct MaidManager { accounts: HashMap<XorName, Account>,
request_cache: LruCache<MessageId, RequestMessage> }`. -/
structure MaidManager where
  accounts : List (Nat × Account)
  request_cache : List (Nat × RequestMessage)
deriving DecidableEq, Repr

/-- `MaidManager::new()`. -/
def MaidManager.new : MaidManager :=
  { accounts := [], request_cache := [] }

/-- `MaidManager::forward_put_request(routing_node, client_name, data,
message_id, request)`:

```rust
let result = self.accounts.get_mut(&client_name)
    .ok_or(ClientError::NoSuchAccount)
    .and_then(|account| account.put_data(DEFAULT_PAYMENT));
if let Err(error) = result {
    try!(self.reply_with_put_failure(routing_node, request.clone(), message_id, &error));
    return Err(InternalError::Client(error));
}
let src = request.dst.clone();
let dst = Authority::NaeManager(data.name());
let _ = routing_node.send_put_request(src, dst, data, message_id);
if let Some(prior_request) = self.request_cache.insert(message_id, request.clone()) {
    error!("Overwrote existing cached request: {:?}", prior_request);
}
Ok(())
```

The triple returned is (the `Result`, the manager state after the call, the
messages handed to the routing collaborator, in order). -/
def MaidManager.forward_put_request (m : MaidManager) (client_name : Nat)
    (data : DataM) (message_id : Nat) (request : RequestMessage) :
    Except InternalError Unit × MaidManager × List RoutingMsg :=
  match alookup m.accounts client_name with
  | none =>
    (.error (.Client .NoSuchAccount), m,
     [.PutFailure request.dst request.src request .NoSuchAccount message_id])
  | some account =>
    match account.put_data DEFAULT_PAYMENT with
    | (.error e, _) =>
      (.error (.Client e), m,
       [.PutFailure request.dst request.src request e message_id])
    | (.ok _, account2) =>
      (.ok (),
       { accounts := ainsert m.accounts client_name account2,
         request_cache := ainsert m.request_cache message_id request },
       [.PutRequest request.dst data.name data message_id])

/-- `MaidManager::handle_put_immutable_data(routing_node, request)` —
destructure the immutable datum and forward. -/
def MaidManager.handle_put_immutable_data (m : MaidManager)
    (request : RequestMessage) :
    Except InternalError Unit × MaidManager × List RoutingMsg :=
  match request.content with
  | .Put (.Immutable n) message_id =>
    m.forward_put_request (clientName request.src) (.Immutable n)
      message_id request
  | _ => (.error .Unreachable, m, [])

/-- `MaidManager::handle_put_structured_data(routing_node, request)`:

```rust
// If the type_tag is 0, the account must not exist, else it must exist.
let client_name = utils::client_name(&request.src);
if type_tag == 0 {
    if self.accounts.contains_key(&client_name) {
        let error = ClientError::AccountExists;
        try!(self.reply_with_put_failure(..));
        return Err(InternalError::Client(error));
    }
    let _ = self.accounts.insert(client_name, Account::default());
}
self.forward_put_request(routing_node, client_name, data, *message_id, request)
``` -/
def MaidManager.handle_put_structured_data (m : MaidManager)
    (request : RequestMessage) :
    Except InternalError Unit × MaidManager × List RoutingMsg :=
  match request.content with
  | .Put (.Structured n type_tag) message_id =>
    let client_name := clientName request.src
    if type_tag = 0 then
      if (alookup m.accounts client_name).isSome then
        (.error (.Client .AccountExists), m,
         [.PutFailure request.dst request.src request .AccountExists message_id])
      else
        ({ m with accounts := ainsert m.accounts client_name Account.default
         } : MaidManager).forward_put_request client_name
          (.Structured n type_tag) message_id request
    else
      m.forward_put_request client_name (.Structured n type_tag)
        message_id request
  | _ => (.error .Unreachable, m, [])

/-- `MaidManager::handle_put(routing_node, request)` — demux on the payload
type. -/
def MaidManager.handle_put (m : MaidManager) (request : RequestMessage) :
    Except InternalError Unit × MaidManager × List RoutingMsg :=
  match request.content with
  | .Put (.Immutable _) _ => m.handle_put_immutable_data request
  | .Put (.Structured _ _) _ => m.handle_put_structured_data request

/-- `MaidManager::handle_put_failure(routing_node, message_id,
external_error_indicator)`:

```rust
match self.request_cache.remove(message_id) {
    Some(client_request) => {
        match self.accounts.get_mut(&utils::client_name(&client_request.src)) {
            Some(account) => account.delete_data(DEFAULT_PAYMENT),
            None => return Ok(()),
        }
        let error = try!(serialisation::deserialise::<ClientError>(external_error_indicator));
        self.reply_with_put_failure(routing_node, client_request, *message_id, &error)
    }
    None => Err(InternalError::FailedToFindCachedRequest(*message_id)),
}
```

The error indicator is modelled as the already-deserialised `ClientError`. -/
def MaidManager.handle_put_failure (m : MaidManager) (message_id : Nat)
    (external_error_indicator : ClientError) :
    Except InternalError Unit × MaidManager × List RoutingMsg :=
  match alookup m.request_cache message_id with
  | some client_request =>
    let m1 : MaidManager :=
      { m with request_cache := aremove m.request_cache message_id }
    match alookup m1.accounts (clientName client_request.src) with
    | some account =>
      (.ok (),
       { m1 with
         accounts :=
           ainsert m1.accounts (clientName client_request.src)
             (account.delete_data DEFAULT_PAYMENT) },
       [.PutFailure client_request.dst client_request.src client_request
         external_error_indicator message_id])
    | none => (.ok (), m1, [])
  | none => (.error (.FailedToFindCachedRequest message_id), m, [])

/-- `MaidManager::handle_put_success(routing_node, message_id)`:
remove the cached entry, send a success response carrying the digest of the
original request (modelled by the request itself) back to the client. -/
def MaidManager.handle_put_success (m : MaidManager) (message_id : Nat) :
    Except InternalError Unit × MaidManager × List RoutingMsg :=
  match alookup m.request_cache message_id with
  | some client_request =>
    (.ok (),
     { m with request_cache := aremove m.request_cache message_id },
     [.PutSuccess client_request.dst client_request.src client_request
       message_id])
  | none => (.error (.FailedToFindCachedRequest message_id), m, [])

/-! ## Helper lemmas -/

/-- Looking up a key right after inserting it yields the inserted value. -/
theorem alookup_ainsert_self {α : Type} (l : List (Nat × α)) (k : Nat) (v : α) :
    alookup (ainsert l k v) k = some v := by
  induction l with
  | nil => simp [ainsert, alookup]
  | cons hd tl ih =>
    obtain ⟨k0, v0⟩ := hd
    by_cases h : k0 = k
    · simp [ainsert, h, alookup]
    · simp [ainsert, h, alookup, ih]

/-- One quota call preserves `data_stored + space_available`. -/
theorem applyOp_preserves (a : Account) (op : AccountOp)
    (h : a.data_stored + a.space_available = DEFAULT_ACCOUNT_SIZE) :
    (applyOp a op).data_stored + (applyOp a op).space_available
      = DEFAULT_ACCOUNT_SIZE := by
  unfold DEFAULT_ACCOUNT_SIZE at h ⊢
  cases op with
  | put size =>
    unfold applyOp Account.put_data
    by_cases hc : a.space_available < size
    · simpa [hc] using h
    · simp only [hc, if_false]
      unfold U64MOD
      omega
  | delete size =>
    unfold applyOp Account.delete_data
    by_cases hc : a.data_stored < size
    · simp only [hc, if_true]
      unfold U64MOD
      omega
    · simp only [hc, if_false]
      unfold U64MOD
      omega

/-- Any sequence of quota calls preserves `data_stored + space_available`. -/
theorem applyOps_preserves (ops : List AccountOp) (a : Account)
    (h : a.data_stored + a.space_available = DEFAULT_ACCOUNT_SIZE) :
    (applyOps a ops).data_stored + (applyOps a ops).space_available
      = DEFAULT_ACCOUNT_SIZE := by
  induction ops generalizing a with
  | nil => simpa [applyOps] using h
  | cons op rest ih =>
    simp only [applyOps, List.foldl] at ih ⊢
    exact ih (applyOp a op) (applyOp_preserves a op h)

/-- `forward_put_request` with no account under the client's name. -/
theorem forward_put_request_no_account (m : MaidManager) (c : Nat)
    (data : DataM) (mid : Nat) (request : RequestMessage)
    (h : alookup m.accounts c = none) :
    m.forward_put_request c data mid request
      = (.error (.Client .NoSuchAccount), m,
         [.PutFailure request.dst request.src request .NoSuchAccount mid]) := by
  unfold MaidManager.forward_put_request
  rw [h]

/-! ## Claim theorems -/

/-- C1: starting from a freshly created account (`data_stored = 0`,
`space_available = DEFAULT_ACCOUNT_SIZE`), after any finite sequence of
`put_data` / `delete_data` calls, `data_stored + space_available` equals the
account's allowance (the default allowance). -/
theorem account_sum_invariant (ops : List AccountOp) :
    (applyOps Account.default ops).data_stored
      + (applyOps Account.default ops).space_available
      = DEFAULT_ACCOUNT_SIZE :=
  applyOps_preserves ops Account.default (by decide)

/-- C5: `put_data(size)` fails with `LowBalance` exactly when
`size > space_available`; on failure the account is unchanged; on success it
adds `size` to `data_stored` (a `u64` addition, hence modulo `2 ^ 64`) and
subtracts `size` from `space_available`. -/
theorem put_data_spec (a : Account) (size : Nat) :
    ((a.put_data size).1 = .error .LowBalance ↔ a.space_available < size)
    ∧ (a.space_available < size → (a.put_data size).2 = a)
    ∧ (size ≤ a.space_available →
        a.put_data size
          = (.ok (),
             { data_stored := (a.data_stored + size) % U64MOD,
               space_available := a.space_available - size })) := by
  unfold Account.put_data
  by_cases hc : a.space_available < size
  · simp [hc]
  · simp [hc]

/-- C5 witness: a concrete fresh account charged 5 bytes. -/
theorem put_data_spec_witness :
    Account.put_data ⟨0, 1073741824⟩ 5 = (.ok (), ⟨5, 1073741819⟩) :=
  (put_data_spec ⟨0, 1073741824⟩ 5).2.2 (by decide)

/-- C6: `delete_data(size)`: when `size > data_stored` it zeroes
`data_stored` and adds the old `data_stored` to `space_available` — which is
the account's full allowance (`data_stored + space_available`, a `u64` sum);
otherwise it subtracts `size` from `data_stored` and adds it to
`space_available`. -/
theorem delete_data_spec (a : Account) (size : Nat) :
    (a.data_stored < size →
      a.delete_data size
          = { data_stored := 0,
              space_available := (a.space_available + a.data_stored) % U64MOD }
        ∧ (a.delete_data size).space_available = a.allowance % U64MOD)
    ∧ (size ≤ a.data_stored →
      a.delete_data size
        = { data_stored := a.data_stored - size,
            space_available := (a.space_available + size) % U64MOD }) := by
  unfold Account.delete_data Account.allowance
  by_cases hc : a.data_stored < size
  · simp [hc, Nat.add_comm]
  · simp [hc]

/-- C6 witness: deleting 5 bytes from an account recording only 3 stored
bytes clamps to zero and restores the full allowance (13). -/
theorem delete_data_spec_witness :
    Account.delete_data ⟨3, 10⟩ 5 = ⟨0, 13⟩ :=
  ((delete_data_spec ⟨3, 10⟩ 5).1 (by decide)).1

/-- C10: `MailBox::put` returns `false` on every input and never changes
`used_space` or `space_available`: the guards return `false` for an
oversized put and for a present entry, and for an absent entry
`HashMap::insert` returns `None`, which the source treats as failure. -/
theorem mailbox_put_always_false (mb : MailBox) (size entry : Nat)
    (pk : Option Nat) :
    (mb.put size entry pk).2 = false
    ∧ (mb.put size entry pk).1.used_space = mb.used_space
    ∧ (mb.put size entry pk).1.space_available = mb.space_available := by
  unfold MailBox.put
  by_cases h1 : mb.space_available < size
  · simp [h1]
  · by_cases h2 : (alookup mb.mail_box entry).isSome
    · simp [h1, h2]
    · cases h3 : alookup mb.mail_box entry with
      | some v => rw [h3] at h2; simp at h2
      | none => simp [h1, h2, h3]

/-- A fresh default account charged one `DEFAULT_PAYMENT` — the quota charge
taken by `forward_put_request`. -/
theorem default_put_payment :
    Account.default.put_data DEFAULT_PAYMENT
      = (.ok (),
         { data_stored := DEFAULT_PAYMENT,
           space_available := DEFAULT_ACCOUNT_SIZE - DEFAULT_PAYMENT }) := rfl

/-- C4: under the per-wallet lock, if the wallet-level preconditions hold
(`wallet.validate` returns `Ok(Some(()))`) but the signing collaborator
returns no signature shares, `Replicas::validate` returns `None` and the
wallet's event log is unchanged; and if the preconditions fail
(`wallet.validate` returns an error), it returns the validation error and the
log is unchanged. -/
theorem validate_unmutated_paths (r : Replicas)
    (wvalidate : List ReplicaEvent → SignedTransfer → Except NdError (Option Unit))
    (signing : SignedTransfer → Except TransferError (Option (Nat × Nat)))
    (st : SignedTransfer)
    (h : r.load_key_lock st.sender_key = .ok ()) :
    (wvalidate (r.getStore st.sender_key) st = .ok (some ()) →
      signing st = .ok none →
      r.validate wvalidate signing st = (.ok none, r))
    ∧ (∀ e, wvalidate (r.getStore st.sender_key) st = .error e →
      r.validate wvalidate signing st = (.error (.NetworkData e), r)) := by
  constructor
  · intro h1 h2
    simp only [Replicas.validate, h, h1, h2]
  · intro e he
    simp only [Replicas.validate, h, he]

/-- C4 witness: a custodied wallet, preconditions passing, signing yielding
no share — the call returns `None` with the state untouched. -/
theorem validate_unmutated_paths_witness :
    Replicas.validate ⟨[2], [], ⟨0, 0, 5, [9]⟩⟩ (fun _ _ => .ok (some ()))
        (fun _ => .ok none) ⟨2, 10, 10⟩
      = (.ok none, ⟨[2], [], ⟨0, 0, 5, [9]⟩⟩) :=
  (validate_unmutated_paths ⟨[2], [], ⟨0, 0, 5, [9]⟩⟩ (fun _ _ => .ok (some ()))
      (fun _ => .ok none) ⟨2, 10, 10⟩ rfl).1 rfl rfl

/-- C2: a concrete wallet whose log already records credit identifier 7
(so the spec-modelled wallet library answers `Ok(None)`), with a signing
collaborator holding a key share and a verifying proof: the source's
`.is_ok()` test makes `receive_propagated` RE-SIGN and APPEND a second
`TransferPropagated` for the same credit and return `Some(event)` — not
`None` with the log unchanged as the claim (and the function's own
"credit idempotency" doc comment) require. -/
theorem receive_propagated_duplicate_credit_appends :
    (creditIds (Replicas.getStore
        ⟨[1], [(1, [.TransferPropagated ⟨⟨1, 100, 7, 9⟩, 5, 3⟩])], ⟨0, 0, 5, [9]⟩⟩
        1)).contains 7 = true
    ∧ (Replicas.receive_propagated
        ⟨[1], [(1, [.TransferPropagated ⟨⟨1, 100, 7, 9⟩, 5, 3⟩])], ⟨0, 0, 5, [9]⟩⟩
        (fun _ => .ok (some 4)) (fun _ => true) ⟨1, 100, 7, 9⟩).1
      = .ok (some ⟨⟨1, 100, 7, 9⟩, 5, 4⟩)
    ∧ ((Replicas.receive_propagated
        ⟨[1], [(1, [.TransferPropagated ⟨⟨1, 100, 7, 9⟩, 5, 3⟩])], ⟨0, 0, 5, [9]⟩⟩
        (fun _ => .ok (some 4)) (fun _ => true) ⟨1, 100, 7, 9⟩).2.getStore 1).length
      = 2 := by
  refine ⟨rfl, rfl, rfl⟩

/-- C3: on a freshly constructed replica (`locks` empty, no logs),
`initiate([])` takes the genesis path but fails with `Error::Logic`: the
genesis wallet is not in the `locks` map and no code path ever inserts into
it, so no `TransferPropagated` is appended and no balance is established.
The balance the code would have credited is `(2^32 - 1) * 10^9`. -/
theorem initiate_genesis_fails_on_fresh_replica :
    (Replicas.new ⟨0, 0, 5, [9]⟩).initiate (fun _ => .ok (some 4))
        (fun _ => true) []
      = (.error .Logic, Replicas.new ⟨0, 0, 5, [9]⟩)
    ∧ genesisBalance = 4294967295000000000 := by
  refine ⟨rfl, rfl⟩

/-- C7: for a put of structured data with type tag 0 (account creation): if
an account already exists under the client's name, the call fails with
`AccountExists`, a failure response goes to the client, and state is
unchanged; otherwise an account at the default allowance is created, charged
`DEFAULT_PAYMENT`, the put is forwarded to the data's `NaeManager`, and the
request is cached under its message identifier. -/
theorem handle_put_structured_create_spec (m : MaidManager)
    (request : RequestMessage) (n mid : Nat)
    (h : request.content = .Put (.Structured n 0) mid) :
    ((alookup m.accounts (clientName request.src)).isSome →
      m.handle_put_structured_data request
        = (.error (.Client .AccountExists), m,
           [.PutFailure request.dst request.src request .AccountExists mid]))
    ∧ (alookup m.accounts (clientName request.src) = none →
      m.handle_put_structured_data request
        = (.ok (),
           { accounts :=
               ainsert (ainsert m.accounts (clientName request.src) Account.default)
                 (clientName request.src)
                 { data_stored := DEFAULT_PAYMENT,
                   space_available := DEFAULT_ACCOUNT_SIZE - DEFAULT_PAYMENT },
             request_cache := ainsert m.request_cache mid request },
           [.PutRequest request.dst n (.Structured n 0) mid])) := by
  constructor
  · intro hsome
    simp only [MaidManager.handle_put_structured_data, h, if_pos rfl, hsome,
      if_true]
  · intro hnone
    have hs : (alookup m.accounts (clientName request.src)).isSome = false := by
      rw [hnone]; rfl
    simp only [MaidManager.handle_put_structured_data, h, if_pos rfl, hs,
      Bool.false_eq_true, if_false, MaidManager.forward_put_request,
      alookup_ainsert_self, default_put_payment, DataM.name, if_true]

/-- C7 witness: creating an account for client 2 on an empty manager. -/
theorem handle_put_structured_create_spec_witness :
    MaidManager.handle_put_structured_data ⟨[], []⟩
        ⟨2, 3, .Put (.Structured 4 0) 5⟩
      = (.ok (),
         { accounts :=
             [(2, { data_stored := DEFAULT_PAYMENT,
                    space_available := DEFAULT_ACCOUNT_SIZE - DEFAULT_PAYMENT })],
           request_cache := [(5, ⟨2, 3, .Put (.Structured 4 0) 5⟩)] },
         [.PutRequest 3 4 (.Structured 4 0) 5]) :=
  (handle_put_structured_create_spec ⟨[], []⟩ ⟨2, 3, .Put (.Structured 4 0) 5⟩
      4 5 rfl).2 rfl

/-- C8: a put of immutable data, or of structured data without the creation
tag, by a client with no account fails with `NoSuchAccount`: exactly one
failure response goes back to the client, no quota is charged, no request is
cached, and no put request is forwarded downstream. -/
theorem handle_put_no_account_spec (m : MaidManager)
    (request : RequestMessage) (n tag mid : Nat)
    (hc : request.content = .Put (.Immutable n) mid
        ∨ (request.content = .Put (.Structured n tag) mid ∧ tag ≠ 0))
    (ha : alookup m.accounts (clientName request.src) = none) :
    m.handle_put request
      = (.error (.Client .NoSuchAccount), m,
         [.PutFailure request.dst request.src request .NoSuchAccount mid]) := by
  rcases hc with h | ⟨h, htag⟩
  · simp only [MaidManager.handle_put, h, MaidManager.handle_put_immutable_data]
    exact forward_put_request_no_account m _ _ mid request ha
  · simp only [MaidManager.handle_put, h, MaidManager.handle_put_structured_data,
      if_neg htag]
    exact forward_put_request_no_account m _ _ mid request ha

/-- C8 witness: client 2 with no account putting immutable data. -/
theorem handle_put_no_account_spec_witness :
    MaidManager.handle_put ⟨[], []⟩ ⟨2, 3, .Put (.Immutable 4) 5⟩
      = (.error (.Client .NoSuchAccount), ⟨[], []⟩,
         [.PutFailure 3 2 ⟨2, 3, .Put (.Immutable 4) 5⟩ .NoSuchAccount 5]) :=
  handle_put_no_account_spec ⟨[], []⟩ ⟨2, 3, .Put (.Immutable 4) 5⟩ 4 0 5
    (Or.inl rfl) rfl

/-- C9 counterexample: a cached request (message id 5, client 2) exists, but
the client has no account (e.g. dropped on churn).  The code removes the
cached entry and returns `Ok(())` WITHOUT refunding and WITHOUT sending any
failure response — refuting the claim that whenever a cached entry exists, a
failure response is sent to the client. -/
theorem handle_put_failure_missing_account_counterexample :
    alookup (MaidManager.mk [] [(5, ⟨2, 3, .Put (.Immutable 4) 5⟩)]).request_cache 5
      = some ⟨2, 3, .Put (.Immutable 4) 5⟩
    ∧ MaidManager.handle_put_failure ⟨[], [(5, ⟨2, 3, .Put (.Immutable 4) 5⟩)]⟩
        5 .NoSuchData
      = (.ok (), ⟨[], []⟩, []) := by
  refine ⟨rfl, rfl⟩

/-- C9 (amended): `handle_put_failure(message_id, error)` fails with
`FailedToFindCachedRequest` when no cached entry exists; when one exists the
entry is removed, and then: if the originating client's account exists it is
refunded by `delete_data(DEFAULT_PAYMENT)` and a failure response is sent to
the client, while if the account is missing the call returns success with no
refund and no response. -/
theorem handle_put_failure_spec (m : MaidManager) (mid : Nat)
    (err : ClientError) :
    (alookup m.request_cache mid = none →
      m.handle_put_failure mid err
        = (.error (.FailedToFindCachedRequest mid), m, []))
    ∧ (∀ req, alookup m.request_cache mid = some req →
        (alookup m.accounts (clientName req.src) = none →
          m.handle_put_failure mid err
            = (.ok (),
               { accounts := m.accounts,
                 request_cache := aremove m.request_cache mid }, []))
        ∧ (∀ acc, alookup m.accounts (clientName req.src) = some acc →
          m.handle_put_failure mid err
            = (.ok (),
               { accounts := ainsert m.accounts (clientName req.src)
                   (acc.delete_data DEFAULT_PAYMENT),
                 request_cache := aremove m.request_cache mid },
               [.PutFailure req.dst req.src req err mid]))) := by
  refine ⟨fun h => ?_, fun req hreq => ⟨fun hacc => ?_, fun acc hacc => ?_⟩⟩
  · simp only [MaidManager.handle_put_failure, h]
  · simp only [MaidManager.handle_put_failure, hreq, hacc]
  · simp only [MaidManager.handle_put_failure, hreq, hacc]

/-- C9 witness: a cached request whose client account holds one payment of
stored data — the refund restores the space and the failure response is
sent. -/
theorem handle_put_failure_spec_witness :
    MaidManager.handle_put_failure
        ⟨[(2, ⟨DEFAULT_PAYMENT, 0⟩)], [(5, ⟨2, 3, .Put (.Immutable 4) 5⟩)]⟩
        5 .NoSuchData
      = (.ok (),
         { accounts := [(2, ⟨0, DEFAULT_PAYMENT⟩)], request_cache := [] },
         [.PutFailure 3 2 ⟨2, 3, .Put (.Immutable 4) 5⟩ .NoSuchData 5]) :=
  ((handle_put_failure_spec
      ⟨[(2, ⟨DEFAULT_PAYMENT, 0⟩)], [(5, ⟨2, 3, .Put (.Immutable 4) 5⟩)]⟩
      5 .NoSuchData).2 ⟨2, 3, .Put (.Immutable 4) 5⟩ rfl).2
    ⟨DEFAULT_PAYMENT, 0⟩ rfl

end SnNode
